import Mathlib

/-
Verification of the GoPro time-sync orchestrator (ESP32 firmware,
`src/gopro time sync/src/main.cpp`).

The firmware is a single sequential program: it scans BLE for a device whose
advertised name starts with "GoPro", connects and resolves four control-plane
characteristics by UUID, reads WiFi credentials, enables the camera's WiFi AP,
polls the AP state until it broadcasts, joins the WiFi network, and applies the
RTC time through one HTTP GET.  A monitoring loop then re-runs the whole unit
on connection loss (throttled by a cool-down window) and re-applies the time
periodically.

This file is a shallow embedding of that program.  External collaborators
(BLE stack, WiFi stack, HTTP client, RTC) are modelled as oracle inputs; the
program's own logic (string building, matching, classification thresholds,
control flow of `setup` and `loop`) is translated directly from the source.
-/

set_option maxHeartbeats 1000000
set_option maxRecDepth 16384

namespace GoProTimeSync

/-! ## Constants from the source -/

/-- UUID of the WiFi SSID characteristic (`GOPRO_WIFI_SSID_UUID`). -/
def GOPRO_WIFI_SSID_UUID : String := "b5f90002-aa8d-11e3-9046-0002a5d5c51b"

/-- UUID of the WiFi password characteristic (`GOPRO_WIFI_PASSWORD_UUID`). -/
def GOPRO_WIFI_PASSWORD_UUID : String := "b5f90003-aa8d-11e3-9046-0002a5d5c51b"

/-- UUID of the WiFi AP enable characteristic (`GOPRO_WIFI_AP_ENABLE_UUID`). -/
def GOPRO_WIFI_AP_ENABLE_UUID : String := "b5f90004-aa8d-11e3-9046-0002a5d5c51b"

/-- UUID of the WiFi AP state characteristic (`GOPRO_WIFI_AP_STATE_UUID`). -/
def GOPRO_WIFI_AP_STATE_UUID : String := "b5f90005-aa8d-11e3-9046-0002a5d5c51b"

/-- `AP_READY_POLL_ATTEMPTS`: poll attempt budget for AP readiness. -/
def AP_READY_POLL_ATTEMPTS : Nat := 25

/-- Restart delay used on every initial-setup failure (`delay(30000)`). -/
def RESTART_DELAY_MS : Nat := 30000

/-- Cool-down between reconnection attempts in `loop` (30 s). -/
def RECONNECT_COOLDOWN_MS : Nat := 30000

/-- Periodic resync period in `loop` (1 h). -/
def RESYNC_PERIOD_MS : Nat := 3600000

/-! ## Time snapshot and the HTTP time-set encoding (`setGoProDateTime`) -/

/-- One calendar timestamp read from the DS3231 RTC (`rtc.now()`). -/
structure TimeSnapshot where
  year : Nat
  month : Nat
  day : Nat
  hour : Nat
  minute : Nat
  second : Nat
deriving DecidableEq

/-- Lowercase hexadecimal digit character for `n < 16`. -/
def hexDigitChar (n : Nat) : Char :=
  if n < 10 then Char.ofNat (48 + n) else Char.ofNat (87 + n)

/-- Fuel-driven accumulation of the hex digits of `n`, most significant first. -/
def hexDigitsAux : Nat → Nat → List Char → List Char
  | 0, _, acc => acc
  | fuel + 1, n, acc =>
    if n = 0 then acc else hexDigitsAux fuel (n / 16) (hexDigitChar (n % 16) :: acc)

/-- Rendering of `n` in lowercase hexadecimal, zero-padded to a minimum width
of two characters — the semantics of the `%02x` conversion used by
`setGoProDateTime`'s `snprintf`. -/
def fmt02x (n : Nat) : String :=
  let ds := if n = 0 then ['0'] else hexDigitsAux (n + 1) n []
  String.mk (if ds.length < 2 then '0' :: ds else ds)

/-- The `p` query parameter built by `setGoProDateTime`:
`%%%02x%%%02x%%%02x%%%02x%%%02x%%%02x` applied to
`(year % 100, month, day, hour, minute, second)`. -/
def dateTimeParam (t : TimeSnapshot) : String :=
  "%" ++ fmt02x (t.year % 100) ++ "%" ++ fmt02x t.month ++ "%" ++ fmt02x t.day ++
  "%" ++ fmt02x t.hour ++ "%" ++ fmt02x t.minute ++ "%" ++ fmt02x t.second

/-- The full URL built by `setGoProDateTime`. -/
def goProDateTimeURL (t : TimeSnapshot) : String :=
  "http://10.5.5.9/gp/gpControl/command/setup/date_time?p=" ++ dateTimeParam t

/-- Outcome classification of the HTTP exchange in `setGoProDateTime`:
`httpCode == 200 || httpCode == 204`. -/
def httpApplied (code : Int) : Bool :=
  code == 200 || code == 204

/-- Spec-side form of one encoded byte group: exactly two lowercase hex
digits. -/
def twoDigitLowerHex (n : Nat) : String :=
  String.mk [hexDigitChar (n / 16), hexDigitChar (n % 16)]

/-! ## Discovery (`scanForGoPro`) -/

/-- Byte-wise prefix test, the semantics of Arduino `String::startsWith`. -/
def strStartsWith (s p : String) : Bool :=
  p.data.isPrefixOf s.data

/-- One advertised device seen during the BLE scan. -/
structure AdvDevice where
  name : String
  addr : String
deriving DecidableEq

/-- Result of the scan stage: the returned address (if any) and whether
`clearResults` ran before returning. -/
structure ScanOutcome where
  result : Option String
  cleared : Bool
deriving DecidableEq

/-- The result loop of `scanForGoPro`: walk the scan results in order, return
the first device whose name starts with "GoPro" (clearing results first), or
clear results and report no device. -/
def scanLoop : List AdvDevice → ScanOutcome
  | [] => { result := none, cleared := true }
  | d :: rest =>
    if strStartsWith d.name "GoPro" then { result := some d.addr, cleared := true }
    else scanLoop rest

/-- `scanForGoPro`, with the scan results supplied by the BLE stack oracle. -/
def scanForGoPro (results : List AdvDevice) : ScanOutcome :=
  scanLoop results

/-! ## Link and capability resolver (`connectToGoPro`) -/

/-- Case-insensitive string equality, the semantics of Arduino
`String::equalsIgnoreCase`. -/
def eqIgnoreCase (a b : String) : Bool :=
  (a.data.map Char.toLower) == (b.data.map Char.toLower)

/-- The four control-plane characteristic pointers (the module globals
`pWiFiSSIDChar`, `pWiFiPasswordChar`, `pWiFiAPEnableChar`, `pWiFiAPStateChar`).
`none` models a null pointer; `some r` a pointer to the characteristic object
with opaque handle `r`. -/
structure Bindings where
  ssid : Option Nat
  password : Option Nat
  apEnable : Option Nat
  apState : Option Nat
deriving DecidableEq

/-- All-null bindings: the state of the four globals at program start. -/
def Bindings.empty : Bindings :=
  ⟨none, none, none, none⟩

/-- One remote characteristic as seen during enumeration: its UUID string and
an opaque handle distinguishing the underlying object. -/
structure RChar where
  uuid : String
  ref : Nat
deriving DecidableEq

/-- One remote service: its UUID and the characteristic list returned by
`getCharacteristics` (`none` models a null pointer). -/
structure RService where
  uuid : String
  chars : Option (List RChar)
deriving DecidableEq

/-- The `if / else if` chain applied to one characteristic inside
`connectToGoPro`'s enumeration loop. -/
def bindChar (b : Bindings) (c : RChar) : Bindings :=
  if eqIgnoreCase c.uuid GOPRO_WIFI_SSID_UUID then
    { b with ssid := some c.ref }
  else if eqIgnoreCase c.uuid GOPRO_WIFI_PASSWORD_UUID then
    { b with password := some c.ref }
  else if eqIgnoreCase c.uuid GOPRO_WIFI_AP_ENABLE_UUID then
    { b with apEnable := some c.ref }
  else if eqIgnoreCase c.uuid GOPRO_WIFI_AP_STATE_UUID then
    { b with apState := some c.ref }
  else b

/-- The inner loop over one service's characteristics. -/
def bindChars (b : Bindings) (cs : List RChar) : Bindings :=
  cs.foldl bindChar b

/-- One service of the enumeration; skipped when `getCharacteristics`
returned null. -/
def bindService (b : Bindings) (s : RService) : Bindings :=
  match s.chars with
  | none => b
  | some cs => bindChars b cs

/-- The single enumeration pass over all services. -/
def resolvePass (b : Bindings) (services : List RService) : Bindings :=
  services.foldl bindService b

/-- The failure report of `connectToGoPro`: the names of the bindings that are
still null after the pass, in the order the source prints them. -/
def missingNames (b : Bindings) : List String :=
  (if b.ssid.isNone then ["SSID"] else []) ++
  (if b.password.isNone then ["Password"] else []) ++
  (if b.apEnable.isNone then ["Enable"] else []) ++
  (if b.apState.isNone then ["State"] else [])

/-- `connectToGoPro`: BLE connect, service enumeration (failing when the
service list is null or empty), the binding pass over every characteristic of
every service, then validation that all four bindings are non-null.  Takes the
current global bindings and returns the updated globals plus the success
flag. -/
def connectToGoPro (b : Bindings) (connectOk : Bool)
    (services : Option (List RService)) : Bindings × Bool :=
  if connectOk = false then (b, false)
  else
    match services with
    | none => (b, false)
    | some ss =>
      if ss.isEmpty then (b, false)
      else
        let b1 := resolvePass b ss
        if b1.ssid.isNone || b1.password.isNone || b1.apEnable.isNone
            || b1.apState.isNone then
          (b1, false)
        else (b1, true)

/-- Helper: the first option when set, otherwise the second. -/
def orDefault (a b : Option Nat) : Option Nat :=
  match a with
  | some r => some r
  | none => b

/-- Spec-side: the handle of the last characteristic in the list whose UUID
matches `u` case-insensitively. -/
def lastMatchRef (u : String) : List RChar → Option Nat
  | [] => none
  | c :: cs =>
    orDefault (lastMatchRef u cs) (if eqIgnoreCase c.uuid u then some c.ref else none)

/-- All characteristics of an enumeration, in the order the pass visits
them. -/
def allChars : List RService → List RChar
  | [] => []
  | s :: ss => (match s.chars with | none => [] | some cs => cs) ++ allChars ss

/-- A characteristic whose UUID matches none of the four control-plane
identifiers. -/
def matchesNoId (c : RChar) : Prop :=
  eqIgnoreCase c.uuid GOPRO_WIFI_SSID_UUID = false ∧
  eqIgnoreCase c.uuid GOPRO_WIFI_PASSWORD_UUID = false ∧
  eqIgnoreCase c.uuid GOPRO_WIFI_AP_ENABLE_UUID = false ∧
  eqIgnoreCase c.uuid GOPRO_WIFI_AP_STATE_UUID = false

instance (c : RChar) : Decidable (matchesNoId c) := by
  unfold matchesNoId
  infer_instance

/-! ## Credentials and AP activation -/

/-- Read/write capability and current value of one characteristic object, as
the BLE stack reports them (`canRead`, `canWrite`, `readValue`). -/
structure CharProps where
  canRead : Bool
  canWrite : Bool
  value : String

/-- `getWiFiSSID`: fails when the SSID binding is null, the object is
unreadable, or the value read is empty; otherwise yields the value. -/
def getWiFiSSID (b : Option Nat) (props : Nat → CharProps) : Option String :=
  match b with
  | none => none
  | some r =>
    if (props r).canRead = false then none
    else if 0 < (props r).value.length then some (props r).value
    else none

/-- `getWiFiPassword`: the same logic on the password binding. -/
def getWiFiPassword (b : Option Nat) (props : Nat → CharProps) : Option String :=
  match b with
  | none => none
  | some r =>
    if (props r).canRead = false then none
    else if 0 < (props r).value.length then some (props r).value
    else none

/-- `enableWiFiAP`: fails when the AP-enable binding is null or the object is
not writable; otherwise issues the unacknowledged one-byte write of 1 and
reports the stack's write result. -/
def enableWiFiAP (b : Option Nat) (props : Nat → CharProps) (writeOk : Bool) :
    Bool :=
  match b with
  | none => false
  | some r => if (props r).canWrite = false then false else writeOk

/-- `checkAPModeStatus`: classify one AP-state read.  `avail` is whether the
AP-state binding is non-null and the object readable; `bytes` is the raw value
read, empty for a failed read.  A first byte of at least 3 is ready; 1 is
still starting (continue); anything else, including a failed read, is not
ready (continue). -/
def checkAPModeStatus (avail : Bool) (bytes : List Nat) : Bool :=
  if avail = false then false
  else
    match bytes with
    | [] => false
    | b :: _ => if 3 ≤ b then true else if b = 1 then false else false

/-- The poll loop of `waitForAPMode`: try attempts `attempt, attempt + 1, …`
while fuel lasts, also counting how many polls ran. -/
def waitFrom (avail : Nat → Bool) (reads : Nat → List Nat) (attempt : Nat) :
    Nat → Bool × Nat
  | 0 => (false, 0)
  | fuel + 1 =>
    if checkAPModeStatus (avail attempt) (reads attempt) then (true, 1)
    else
      let r := waitFrom avail reads (attempt + 1) fuel
      (r.1, r.2 + 1)

/-- `waitForAPMode`: up to `AP_READY_POLL_ATTEMPTS` polls starting at attempt
number 1; returns whether the AP became ready and how many polls ran. -/
def waitForAPMode (avail : Nat → Bool) (reads : Nat → List Nat) : Bool × Nat :=
  waitFrom avail reads 1 AP_READY_POLL_ATTEMPTS

/-- Availability of the AP-state characteristic as the poll loop re-checks it
on every attempt: the binding is non-null and the object readable. -/
def apStateAvail (b : Bindings) (props : Nat → CharProps) : Nat → Bool :=
  fun _ =>
    match b.apState with
    | none => false
    | some r => (props r).canRead

/-! ## Orchestrator: `setup`, `reconnectToGoPro` and `loop` -/

/-- The collaborator oracle for one run of `setup` or `reconnectToGoPro`: the
outcomes of every external operation the stages perform. -/
structure Env where
  rtcOk : Bool
  time : TimeSnapshot
  scanResults : List AdvDevice
  bleConnectOk : Bool
  services : Option (List RService)
  props : Nat → CharProps
  apWriteOk : Bool
  apReads : Nat → List Nat
  wifiJoinOk : Bool
  httpCode : Int

/-- Result of `setup`: either a full process restart after a fixed delay
(`delay(30000); ESP.restart()`), tagged with the stage that failed, or entry
into the monitoring loop carrying the outcome of the initial time apply. -/
inductive SetupResult where
  | restart (failedStage : String) (delayMs : Nat)
  | monitoring (applied : Bool)
deriving DecidableEq

/-- `setup`: the initial orchestration sequence, returning its result and the
ordered list of stages that began executing. -/
def setup (env : Env) : SetupResult × List String :=
  if env.rtcOk = false then (.restart "rtc" RESTART_DELAY_MS, ["rtc"])
  else
    match (scanForGoPro env.scanResults).result with
    | none => (.restart "scan" RESTART_DELAY_MS, ["rtc", "scan"])
    | some _addr =>
      let c := connectToGoPro Bindings.empty env.bleConnectOk env.services
      if c.2 = false then
        (.restart "connect" RESTART_DELAY_MS, ["rtc", "scan", "connect"])
      else
        match getWiFiSSID c.1.ssid env.props with
        | none =>
          (.restart "creds" RESTART_DELAY_MS, ["rtc", "scan", "connect", "creds"])
        | some _ssid =>
          match getWiFiPassword c.1.password env.props with
          | none =>
            (.restart "creds" RESTART_DELAY_MS, ["rtc", "scan", "connect", "creds"])
          | some _password =>
            if enableWiFiAP c.1.apEnable env.props env.apWriteOk = false then
              (.restart "enable" RESTART_DELAY_MS,
                ["rtc", "scan", "connect", "creds", "enable"])
            else if (waitForAPMode (apStateAvail c.1 env.props) env.apReads).1
                = false then
              (.restart "apwait" RESTART_DELAY_MS,
                ["rtc", "scan", "connect", "creds", "enable", "apwait"])
            else if env.wifiJoinOk = false then
              (.restart "wifi" RESTART_DELAY_MS,
                ["rtc", "scan", "connect", "creds", "enable", "apwait", "wifi"])
            else
              (.monitoring (httpApplied env.httpCode),
                ["rtc", "scan", "connect", "creds", "enable", "apwait", "wifi",
                  "apply"])

/-- `reconnectToGoPro`: the full reconnection unit (scan, BLE connect,
credential re-read, AP enable, AP wait, WiFi join), threading the global
bindings; any sub-stage failure aborts the unit.  Returns the updated
bindings, the success flag, and the stages that began executing. -/
def reconnectToGoPro (b0 : Bindings) (env : Env) :
    Bindings × Bool × List String :=
  match (scanForGoPro env.scanResults).result with
  | none => (b0, false, ["scan"])
  | some _addr =>
    let c := connectToGoPro b0 env.bleConnectOk env.services
    if c.2 = false then (c.1, false, ["scan", "connect"])
    else
      match getWiFiSSID c.1.ssid env.props with
      | none => (c.1, false, ["scan", "connect", "creds"])
      | some _ssid =>
        match getWiFiPassword c.1.password env.props with
        | none => (c.1, false, ["scan", "connect", "creds"])
        | some _password =>
          if enableWiFiAP c.1.apEnable env.props env.apWriteOk = false then
            (c.1, false, ["scan", "connect", "creds", "enable"])
          else if (waitForAPMode (apStateAvail c.1 env.props) env.apReads).1
              = false then
            (c.1, false, ["scan", "connect", "creds", "enable", "apwait"])
          else if env.wifiJoinOk = false then
            (c.1, false, ["scan", "connect", "creds", "enable", "apwait", "wifi"])
          else
            (c.1, true, ["scan", "connect", "creds", "enable", "apwait", "wifi"])

/-! ## The monitoring loop (`loop`) -/

/-- 2^32, the modulus of `unsigned long` arithmetic on the ESP32. -/
def UINT32_MOD : Nat := 4294967296

/-- Unsigned 32-bit subtraction, the semantics of `millis() - lastX` on
`unsigned long` values. -/
def usub (a b : Nat) : Nat :=
  (a % UINT32_MOD + (UINT32_MOD - b % UINT32_MOD)) % UINT32_MOD

/-- The static locals of `loop`. -/
structure LoopState where
  wasConnected : Bool
  lastReconnectAttempt : Nat
  lastSync : Nat
deriving DecidableEq

/-- Initial values of `loop`'s static locals. -/
def LoopState.init : LoopState :=
  ⟨true, 0, 0⟩

/-- The oracle for one `loop` iteration: the WiFi association status sampled
at the top, the outcome of the reconnection unit and of the time apply when
invoked, the `millis()` sample used by the gate checks, and the later
`millis()` sample stored into `lastSync` on a successful apply. -/
structure LoopEnv where
  isConnected : Bool
  reconnectOk : Bool
  applyOk : Bool
  now : Nat
  nowSync : Nat

/-- Externally visible actions of one `loop` iteration. -/
structure LoopActions where
  alerted : Bool
  reconnectAttempted : Bool
  applyAttempted : Bool
  beeped : Bool
deriving DecidableEq

/-- One iteration of `loop`.  The source's two `if` statements run in
sequence, but both test the `isConnected` local sampled once at the top, so
they are mutually exclusive and rendered as an `else` chain here. -/
def loopStep (s : LoopState) (e : LoopEnv) : LoopState × LoopActions :=
  let isConnected := e.isConnected
  let alerted := s.wasConnected && !isConnected
  let wc0 := if alerted then false else s.wasConnected
  if isConnected = false ∧ RECONNECT_COOLDOWN_MS < usub e.now s.lastReconnectAttempt
  then
    if e.reconnectOk then
      if e.applyOk then
        (⟨true, e.now, e.nowSync⟩, ⟨alerted, true, true, true⟩)
      else
        (⟨true, e.now, s.lastSync⟩, ⟨alerted, true, true, false⟩)
    else
      (⟨wc0, e.now, s.lastSync⟩, ⟨alerted, true, false, false⟩)
  else if isConnected = true ∧ RESYNC_PERIOD_MS < usub e.now s.lastSync then
    if e.applyOk then
      (⟨wc0, s.lastReconnectAttempt, e.nowSync⟩, ⟨alerted, false, true, true⟩)
    else
      (⟨wc0, s.lastReconnectAttempt, s.lastSync⟩, ⟨alerted, false, true, false⟩)
  else
    (⟨wc0, s.lastReconnectAttempt, s.lastSync⟩, ⟨alerted, false, false, false⟩)

/-- State of `loop` after processing the first `k` oracles of `envs`. -/
def stateAfter (s : LoopState) : List LoopEnv → Nat → LoopState
  | _, 0 => s
  | [], _ + 1 => s
  | e :: es, k + 1 => stateAfter (loopStep s e).1 es k

/-- Whether iteration `k` of the run from `s` over `envs` executes the
reconnection unit. -/
def attemptedAt (s : LoopState) (envs : List LoopEnv) (k : Nat) : Bool :=
  match envs.get? k with
  | none => false
  | some e => (loopStep (stateAfter s envs k) e).2.reconnectAttempted

/-- A fully successful collaborator oracle (one GoPro found, all four
characteristics present, readable non-empty credentials, AP ready on the
first poll, WiFi joined), parameterized by the HTTP status code of the time
apply. -/
def okEnv (code : Int) : Env :=
  ⟨true, ⟨2024, 3, 9, 14, 5, 30⟩, [⟨"GoPro 1234", "aa"⟩], true,
    some [⟨"svc", some [⟨GOPRO_WIFI_SSID_UUID, 0⟩, ⟨GOPRO_WIFI_PASSWORD_UUID, 1⟩,
      ⟨GOPRO_WIFI_AP_ENABLE_UUID, 2⟩, ⟨GOPRO_WIFI_AP_STATE_UUID, 3⟩]⟩],
    fun _ => ⟨true, true, "creds"⟩, true, fun _ => [3], true, code⟩

/-- All the conditions under which `setup` reaches the time-apply stage: RTC
present, a device found, BLE connect and capability validation passed, both
credentials read non-empty, AP enable written, AP broadcasting observed within
the poll budget, WiFi joined. -/
def setupStagesOk (env : Env) : Prop :=
  env.rtcOk = true ∧
  (∃ a, (scanForGoPro env.scanResults).result = some a) ∧
  (connectToGoPro Bindings.empty env.bleConnectOk env.services).2 = true ∧
  (∃ v, getWiFiSSID
    (connectToGoPro Bindings.empty env.bleConnectOk env.services).1.ssid
    env.props = some v) ∧
  (∃ v, getWiFiPassword
    (connectToGoPro Bindings.empty env.bleConnectOk env.services).1.password
    env.props = some v) ∧
  enableWiFiAP
    (connectToGoPro Bindings.empty env.bleConnectOk env.services).1.apEnable
    env.props env.apWriteOk = true ∧
  (waitForAPMode
    (apStateAvail (connectToGoPro Bindings.empty env.bleConnectOk env.services).1
      env.props)
    env.apReads).1 = true ∧
  env.wifiJoinOk = true

end GoProTimeSync

namespace GoProTimeSync

/-! ## Theorems: time encoding (C1) and discovery (C7) -/

/-- For every byte value, the `%02x` rendering is exactly two lowercase hex
digits. -/
theorem fmt02x_eq_twoDigit : ∀ n, n < 256 → fmt02x n = twoDigitLowerHex n := by
  decide

/-- C1: the time-apply stage builds the query parameter `p` as six two-digit
lowercase-hexadecimal byte groups, each prefixed by `%`, encoding
(year mod 100, month, day, hour, minute, second) in that order; the snapshot
(2024, 3, 9, 14, 5, 30) yields exactly `%18%03%09%0e%05%1e`; and the request is
classified as Applied iff the HTTP status code is 200 or 204. -/
theorem c1_time_encoding (t : TimeSnapshot)
    (hmo : t.month < 256) (hd : t.day < 256) (hh : t.hour < 256)
    (hmi : t.minute < 256) (hs : t.second < 256) :
    dateTimeParam t =
      "%" ++ twoDigitLowerHex (t.year % 100) ++ "%" ++ twoDigitLowerHex t.month ++
      "%" ++ twoDigitLowerHex t.day ++ "%" ++ twoDigitLowerHex t.hour ++
      "%" ++ twoDigitLowerHex t.minute ++ "%" ++ twoDigitLowerHex t.second ∧
    dateTimeParam ⟨2024, 3, 9, 14, 5, 30⟩ = "%18%03%09%0e%05%1e" ∧
    (∀ code : Int, httpApplied code = true ↔ (code = 200 ∨ code = 204)) := by
  refine ⟨?_, ?_, ?_⟩
  · have hy : t.year % 100 < 256 :=
      lt_trans (Nat.mod_lt _ (by norm_num)) (by norm_num)
    rw [dateTimeParam, fmt02x_eq_twoDigit _ hy, fmt02x_eq_twoDigit _ hmo,
      fmt02x_eq_twoDigit _ hd, fmt02x_eq_twoDigit _ hh,
      fmt02x_eq_twoDigit _ hmi, fmt02x_eq_twoDigit _ hs]
  · decide
  · intro code
    simp [httpApplied]

/-- Witness for C1 at the snapshot (2024, 3, 9, 14, 5, 30). -/
theorem c1_time_encoding_witness :
    dateTimeParam ⟨2024, 3, 9, 14, 5, 30⟩ = "%18%03%09%0e%05%1e" :=
  (c1_time_encoding ⟨2024, 3, 9, 14, 5, 30⟩ (by decide) (by decide) (by decide)
    (by decide) (by decide)).2.1

/-- C7: discovery returns the address of the first advertised device whose
name starts with "GoPro" (case-sensitive, no ranking), returns no address when
no name matches, and in both outcomes the scan results are cleared before
returning. -/
theorem c7_scan_first_match (results : List AdvDevice) :
    scanForGoPro results =
      { result := (results.find? (fun d => strStartsWith d.name "GoPro")).map
          (fun d => d.addr),
        cleared := true } ∧
    ((∀ d ∈ results, strStartsWith d.name "GoPro" = false) →
      (scanForGoPro results).result = none) := by
  constructor
  · induction results with
    | nil => rfl
    | cons d rest ih =>
      by_cases h : strStartsWith d.name "GoPro"
      · simp [scanForGoPro, scanLoop, h, List.find?_cons]
      · simp only [Bool.not_eq_true] at h
        simpa [scanForGoPro, scanLoop, h, List.find?_cons] using ih
  · intro hnone
    induction results with
    | nil => rfl
    | cons d rest ih =>
      have hd := hnone d (by simp)
      simp only [scanForGoPro, scanLoop, hd, Bool.false_eq_true, if_false]
      exact ih (fun x hx => hnone x (by simp [hx]))

/-- Witness for C7 on a scan list with a case-mismatched name and a match in
second position. -/
theorem c7_scan_first_match_witness :
    scanForGoPro [⟨"gopro 1234", "aa"⟩, ⟨"GoPro 5678", "bb"⟩, ⟨"GoPro 9999", "cc"⟩] =
      { result := some "bb", cleared := true } := by
  have h := (c7_scan_first_match
    [⟨"gopro 1234", "aa"⟩, ⟨"GoPro 5678", "bb"⟩, ⟨"GoPro 9999", "cc"⟩]).1
  rw [h]
  decide

/-! ## Resolver lemmas -/

/-- A string case-insensitively equal to `a` cannot also be case-insensitively
equal to a `b` that differs from `a` case-insensitively. -/
theorem eqIgnoreCase_excl {a b : String} (hab : eqIgnoreCase a b = false)
    {s : String} (hs : eqIgnoreCase s a = true) : eqIgnoreCase s b = false := by
  simp only [eqIgnoreCase, beq_iff_eq, beq_eq_false_iff_ne, ne_eq] at hab hs ⊢
  rw [hs]
  exact hab

/-- Algebra of `orDefault`. -/
theorem orDefault_assoc (a b c : Option Nat) :
    orDefault (orDefault a b) c = orDefault a (orDefault b c) := by
  cases a <;> cases b <;> rfl

/-- `orDefault` with an empty fallback. -/
theorem orDefault_none (a : Option Nat) : orDefault a none = a := by
  cases a <;> rfl

/-- `orDefault` keeps a set fallback set. -/
theorem orDefault_isSome {b : Option Nat} (h : b.isSome = true) (a : Option Nat) :
    (orDefault a b).isSome = true := by
  cases a <;> simp [orDefault, h]

/-- The field touched by the first branch of the `else if` chain. -/
theorem bindChar_ssid (b : Bindings) (c : RChar) :
    (bindChar b c).ssid =
      if eqIgnoreCase c.uuid GOPRO_WIFI_SSID_UUID then some c.ref else b.ssid := by
  by_cases hm : eqIgnoreCase c.uuid GOPRO_WIFI_SSID_UUID = true
  · simp [bindChar, hm]
  · rw [if_neg hm]
    unfold bindChar
    repeat' split
    all_goals first
    | rfl
    | exact absurd (by assumption) hm

/-- The password field after one chain step: a characteristic matching the
SSID identifier cannot match the password identifier, so the chain order does
not matter for this field. -/
theorem bindChar_password (b : Bindings) (c : RChar) :
    (bindChar b c).password =
      if eqIgnoreCase c.uuid GOPRO_WIFI_PASSWORD_UUID then some c.ref
      else b.password := by
  by_cases hm : eqIgnoreCase c.uuid GOPRO_WIFI_PASSWORD_UUID = true
  · have h1 : eqIgnoreCase c.uuid GOPRO_WIFI_SSID_UUID = false :=
      eqIgnoreCase_excl (by decide) hm
    simp [bindChar, h1, hm]
  · rw [if_neg hm]
    unfold bindChar
    repeat' split
    all_goals first
    | rfl
    | exact absurd (by assumption) hm

/-- The AP-enable field after one chain step. -/
theorem bindChar_apEnable (b : Bindings) (c : RChar) :
    (bindChar b c).apEnable =
      if eqIgnoreCase c.uuid GOPRO_WIFI_AP_ENABLE_UUID then some c.ref
      else b.apEnable := by
  by_cases hm : eqIgnoreCase c.uuid GOPRO_WIFI_AP_ENABLE_UUID = true
  · have h1 : eqIgnoreCase c.uuid GOPRO_WIFI_SSID_UUID = false :=
      eqIgnoreCase_excl (by decide) hm
    have h2 : eqIgnoreCase c.uuid GOPRO_WIFI_PASSWORD_UUID = false :=
      eqIgnoreCase_excl (by decide) hm
    simp [bindChar, h1, h2, hm]
  · rw [if_neg hm]
    unfold bindChar
    repeat' split
    all_goals first
    | rfl
    | exact absurd (by assumption) hm

/-- The AP-state field after one chain step. -/
theorem bindChar_apState (b : Bindings) (c : RChar) :
    (bindChar b c).apState =
      if eqIgnoreCase c.uuid GOPRO_WIFI_AP_STATE_UUID then some c.ref
      else b.apState := by
  by_cases hm : eqIgnoreCase c.uuid GOPRO_WIFI_AP_STATE_UUID = true
  · have h1 : eqIgnoreCase c.uuid GOPRO_WIFI_SSID_UUID = false :=
      eqIgnoreCase_excl (by decide) hm
    have h2 : eqIgnoreCase c.uuid GOPRO_WIFI_PASSWORD_UUID = false :=
      eqIgnoreCase_excl (by decide) hm
    have h3 : eqIgnoreCase c.uuid GOPRO_WIFI_AP_ENABLE_UUID = false :=
      eqIgnoreCase_excl (by decide) hm
    simp [bindChar, h1, h2, h3, hm]
  · rw [if_neg hm]
    unfold bindChar
    repeat' split
    all_goals first
    | rfl
    | exact absurd (by assumption) hm

/-- The SSID binding after the inner loop is the last SSID match, falling back
to the incoming binding. -/
theorem bindChars_ssid (cs : List RChar) (b : Bindings) :
    (bindChars b cs).ssid =
      orDefault (lastMatchRef GOPRO_WIFI_SSID_UUID cs) b.ssid := by
  induction cs generalizing b with
  | nil => rfl
  | cons c cs ih =>
    show (bindChars (bindChar b c) cs).ssid = _
    rw [ih, lastMatchRef, orDefault_assoc, bindChar_ssid]
    congr 1
    by_cases hm : eqIgnoreCase c.uuid GOPRO_WIFI_SSID_UUID = true <;>
      simp [hm, orDefault]

/-- The password binding after the inner loop. -/
theorem bindChars_password (cs : List RChar) (b : Bindings) :
    (bindChars b cs).password =
      orDefault (lastMatchRef GOPRO_WIFI_PASSWORD_UUID cs) b.password := by
  induction cs generalizing b with
  | nil => rfl
  | cons c cs ih =>
    show (bindChars (bindChar b c) cs).password = _
    rw [ih, lastMatchRef, orDefault_assoc, bindChar_password]
    congr 1
    by_cases hm : eqIgnoreCase c.uuid GOPRO_WIFI_PASSWORD_UUID = true <;>
      simp [hm, orDefault]

/-- The AP-enable binding after the inner loop. -/
theorem bindChars_apEnable (cs : List RChar) (b : Bindings) :
    (bindChars b cs).apEnable =
      orDefault (lastMatchRef GOPRO_WIFI_AP_ENABLE_UUID cs) b.apEnable := by
  induction cs generalizing b with
  | nil => rfl
  | cons c cs ih =>
    show (bindChars (bindChar b c) cs).apEnable = _
    rw [ih, lastMatchRef, orDefault_assoc, bindChar_apEnable]
    congr 1
    by_cases hm : eqIgnoreCase c.uuid GOPRO_WIFI_AP_ENABLE_UUID = true <;>
      simp [hm, orDefault]

/-- The AP-state binding after the inner loop. -/
theorem bindChars_apState (cs : List RChar) (b : Bindings) :
    (bindChars b cs).apState =
      orDefault (lastMatchRef GOPRO_WIFI_AP_STATE_UUID cs) b.apState := by
  induction cs generalizing b with
  | nil => rfl
  | cons c cs ih =>
    show (bindChars (bindChar b c) cs).apState = _
    rw [ih, lastMatchRef, orDefault_assoc, bindChar_apState]
    congr 1
    by_cases hm : eqIgnoreCase c.uuid GOPRO_WIFI_AP_STATE_UUID = true <;>
      simp [hm, orDefault]

/-- The two nested loops of the pass visit exactly the flattened
characteristic list. -/
theorem resolvePass_eq_bindChars (ss : List RService) (b : Bindings) :
    resolvePass b ss = bindChars b (allChars ss) := by
  induction ss generalizing b with
  | nil => rfl
  | cons s ss ih =>
    have hsvc : bindService b s =
        bindChars b (match s.chars with | none => [] | some cs => cs) := by
      obtain ⟨su, sc⟩ := s
      cases sc <;> rfl
    show resolvePass (bindService b s) ss = _
    rw [ih, hsvc, allChars]
    simp only [bindChars, List.foldl_append]

/-- A list with no match has no last match. -/
theorem lastMatchRef_eq_none {u : String} {cs : List RChar}
    (h : ∀ c ∈ cs, eqIgnoreCase c.uuid u = false) : lastMatchRef u cs = none := by
  induction cs with
  | nil => rfl
  | cons c cs ih =>
    rw [lastMatchRef, ih (fun x hx => h x (List.mem_cons_of_mem _ hx)),
      h c (List.mem_cons_self c cs)]
    rfl

/-- Field-wise extensionality for the binding record. -/
theorem Bindings.ext_fields {x y : Bindings} (h1 : x.ssid = y.ssid)
    (h2 : x.password = y.password) (h3 : x.apEnable = y.apEnable)
    (h4 : x.apState = y.apState) : x = y := by
  cases x
  cases y
  simp_all

/-- The bindings returned by `connectToGoPro` on a successful BLE connect:
unchanged when the enumeration is empty, otherwise the result of the pass. -/
theorem connectToGoPro_fst (b : Bindings) (ss : List RService) :
    (connectToGoPro b true (some ss)).1 =
      if ss.isEmpty then b else resolvePass b ss := by
  unfold connectToGoPro
  simp only [Bool.true_eq_false, if_false]
  split
  · rfl
  · split <;> rfl

/-- Validation of `connectToGoPro` on a successful BLE connect: success iff
the enumeration is non-empty and all four bindings are set after the pass. -/
theorem connectToGoPro_ok_iff (b : Bindings) (ss : List RService) :
    (connectToGoPro b true (some ss)).2 = true ↔
      (ss.isEmpty = false ∧ (resolvePass b ss).ssid.isSome = true ∧
        (resolvePass b ss).password.isSome = true ∧
        (resolvePass b ss).apEnable.isSome = true ∧
        (resolvePass b ss).apState.isSome = true) := by
  unfold connectToGoPro
  simp only [Bool.true_eq_false, if_false]
  split
  next hemp => simp [hemp]
  next hemp =>
    have hemp2 : ss.isEmpty = false := by
      revert hemp
      cases ss.isEmpty <;> simp
    split
    next hnone =>
      simp only [Bool.or_eq_true, Option.isNone_iff_eq_none] at hnone
      constructor
      · intro hf
        simp at hf
      · rintro ⟨_, hs1, hs2, hs3, hs4⟩
        exfalso
        rcases hnone with ((h | h) | h) | h
        · exact Option.ne_none_iff_isSome.mpr hs1 h
        · exact Option.ne_none_iff_isSome.mpr hs2 h
        · exact Option.ne_none_iff_isSome.mpr hs3 h
        · exact Option.ne_none_iff_isSome.mpr hs4 h
    next hnone =>
      simp only [Bool.or_eq_true, Option.isNone_iff_eq_none] at hnone
      push_neg at hnone
      obtain ⟨⟨⟨n1, n2⟩, n3⟩, n4⟩ := hnone
      constructor
      · intro _
        exact ⟨hemp2, Option.ne_none_iff_isSome.mp n1,
          Option.ne_none_iff_isSome.mp n2, Option.ne_none_iff_isSome.mp n3,
          Option.ne_none_iff_isSome.mp n4⟩
      · intro _
        rfl

/-- The pass keeps a set SSID binding set. -/
theorem resolvePass_mono_ssid {b : Bindings} (h : b.ssid.isSome = true)
    (ss : List RService) : (resolvePass b ss).ssid.isSome = true := by
  rw [resolvePass_eq_bindChars, bindChars_ssid]
  exact orDefault_isSome h _

/-- The pass keeps a set password binding set. -/
theorem resolvePass_mono_password {b : Bindings} (h : b.password.isSome = true)
    (ss : List RService) : (resolvePass b ss).password.isSome = true := by
  rw [resolvePass_eq_bindChars, bindChars_password]
  exact orDefault_isSome h _

/-- The pass keeps a set AP-enable binding set. -/
theorem resolvePass_mono_apEnable {b : Bindings} (h : b.apEnable.isSome = true)
    (ss : List RService) : (resolvePass b ss).apEnable.isSome = true := by
  rw [resolvePass_eq_bindChars, bindChars_apEnable]
  exact orDefault_isSome h _

/-- The pass keeps a set AP-state binding set. -/
theorem resolvePass_mono_apState {b : Bindings} (h : b.apState.isSome = true)
    (ss : List RService) : (resolvePass b ss).apState.isSome = true := by
  rw [resolvePass_eq_bindChars, bindChars_apState]
  exact orDefault_isSome h _

/-- `connectToGoPro` returns the incoming bindings or the result of the
pass. -/
theorem connectToGoPro_fst_cases (b : Bindings) (connectOk : Bool)
    (services : Option (List RService)) :
    (connectToGoPro b connectOk services).1 = b ∨
      ∃ ss, services = some ss ∧
        (connectToGoPro b connectOk services).1 = resolvePass b ss := by
  unfold connectToGoPro
  split
  · exact Or.inl rfl
  · split
    · exact Or.inl rfl
    · next ss =>
      split
      · exact Or.inl rfl
      · refine Or.inr ⟨ss, rfl, ?_⟩
        dsimp only
        split <;> rfl

/-- `reconnectToGoPro` leaves the bindings alone or passes them through
`connectToGoPro`. -/
theorem reconnectToGoPro_fst (b : Bindings) (env : Env) :
    (reconnectToGoPro b env).1 = b ∨
      (reconnectToGoPro b env).1 =
        (connectToGoPro b env.bleConnectOk env.services).1 := by
  unfold reconnectToGoPro
  dsimp only
  split
  · exact Or.inl rfl
  · split
    · exact Or.inr rfl
    · split
      · exact Or.inr rfl
      · split
        · exact Or.inr rfl
        · split
          · exact Or.inr rfl
          · split
            · exact Or.inr rfl
            · split <;> exact Or.inr rfl

/-! ## C2: capability resolution -/

/-- Counterexample to C2 as stated: when two characteristics carry the SSID
UUID, the resolver binds the LAST one, not the first match. -/
theorem c2_counterexample :
    (let r := connectToGoPro Bindings.empty true
        (some [{ uuid := "fea6", chars := some [
          { uuid := GOPRO_WIFI_SSID_UUID, ref := 0 },
          { uuid := GOPRO_WIFI_SSID_UUID, ref := 1 },
          { uuid := GOPRO_WIFI_PASSWORD_UUID, ref := 2 },
          { uuid := GOPRO_WIFI_AP_ENABLE_UUID, ref := 3 },
          { uuid := GOPRO_WIFI_AP_STATE_UUID, ref := 4 }] }]);
      r.1.ssid = some 1 ∧ r.1.ssid ≠ some 0 ∧ r.2 = true) := by
  decide

/-- C2 (amended): the resolver compares each characteristic identifier
case-insensitively against the four control-plane identifiers and binds the
last match found for each (a later duplicate overwrites an earlier binding);
after the single pass, if any of the four bindings is null, connect fails,
the failure report names exactly the missing bindings, and the caller in
`setup` never proceeds to AP activation. -/
theorem c2_resolver_binds_last_match (services : List RService) (env : Env) :
    ((connectToGoPro Bindings.empty true (some services)).1.ssid =
        lastMatchRef GOPRO_WIFI_SSID_UUID (allChars services) ∧
      (connectToGoPro Bindings.empty true (some services)).1.password =
        lastMatchRef GOPRO_WIFI_PASSWORD_UUID (allChars services) ∧
      (connectToGoPro Bindings.empty true (some services)).1.apEnable =
        lastMatchRef GOPRO_WIFI_AP_ENABLE_UUID (allChars services) ∧
      (connectToGoPro Bindings.empty true (some services)).1.apState =
        lastMatchRef GOPRO_WIFI_AP_STATE_UUID (allChars services)) ∧
    ((connectToGoPro Bindings.empty true (some services)).2 = true ↔
      (services.isEmpty = false ∧
        (connectToGoPro Bindings.empty true (some services)).1.ssid.isSome = true ∧
        (connectToGoPro Bindings.empty true (some services)).1.password.isSome = true ∧
        (connectToGoPro Bindings.empty true (some services)).1.apEnable.isSome = true ∧
        (connectToGoPro Bindings.empty true (some services)).1.apState.isSome = true)) ∧
    (∀ bnd : Bindings,
      ("SSID" ∈ missingNames bnd ↔ bnd.ssid = none) ∧
      ("Password" ∈ missingNames bnd ↔ bnd.password = none) ∧
      ("Enable" ∈ missingNames bnd ↔ bnd.apEnable = none) ∧
      ("State" ∈ missingNames bnd ↔ bnd.apState = none)) ∧
    ((connectToGoPro Bindings.empty env.bleConnectOk env.services).2 = false →
      "enable" ∉ (setup env).2) := by
  refine ⟨?_, ?_, ?_, ?_⟩
  · by_cases hemp : services.isEmpty = true
    · have : services = [] := List.isEmpty_iff.mp hemp
      subst this
      decide
    · rw [Bool.not_eq_true] at hemp
      rw [connectToGoPro_fst, hemp]
      simp only [Bool.false_eq_true, if_false]
      rw [resolvePass_eq_bindChars, bindChars_ssid, bindChars_password,
        bindChars_apEnable, bindChars_apState]
      exact ⟨orDefault_none _, orDefault_none _, orDefault_none _, orDefault_none _⟩
  · rw [connectToGoPro_ok_iff, connectToGoPro_fst]
    by_cases hemp : services.isEmpty = true
    · simp [hemp]
    · rw [Bool.not_eq_true] at hemp
      simp [hemp]
  · intro bnd
    cases hs : bnd.ssid <;> cases hp : bnd.password <;> cases he : bnd.apEnable <;>
      cases hst : bnd.apState <;>
      simp [missingNames, hs, hp, he, hst]
  · intro h
    unfold setup
    by_cases hrtc : env.rtcOk = false
    · simp [hrtc]
    · rw [Bool.not_eq_false] at hrtc
      simp only [hrtc, Bool.true_eq_false, if_false]
      cases hscan : (scanForGoPro env.scanResults).result with
      | none =>
        dsimp only
        decide
      | some a =>
        simp [h]

/-- Witness for C2: with the BLE connect failing, `setup` never reaches the
AP-enable stage. -/
theorem c2_resolver_binds_last_match_witness :
    "enable" ∉ (setup ⟨true, ⟨2024, 1, 1, 0, 0, 0⟩, [⟨"GoPro 1234", "aa"⟩],
      false, none, fun _ => ⟨true, true, "x"⟩, true, fun _ => [3], true, 200⟩).2 :=
  (c2_resolver_binds_last_match [] _).2.2.2 (by decide)

/-! ## C3: AP-state polling -/

/-- One successful poll stops the loop with a count of one. -/
theorem waitFrom_step_true (avail : Nat → Bool) (reads : Nat → List Nat)
    (attempt fuel : Nat)
    (hc : checkAPModeStatus (avail attempt) (reads attempt) = true) :
    waitFrom avail reads attempt (fuel + 1) = (true, 1) := by
  simp [waitFrom, hc]

/-- One unsuccessful poll recurses and counts itself. -/
theorem waitFrom_step_false (avail : Nat → Bool) (reads : Nat → List Nat)
    (attempt fuel : Nat)
    (hc : checkAPModeStatus (avail attempt) (reads attempt) = false) :
    waitFrom avail reads attempt (fuel + 1) =
      ((waitFrom avail reads (attempt + 1) fuel).1,
        (waitFrom avail reads (attempt + 1) fuel).2 + 1) := by
  simp [waitFrom, hc]

/-- Success of the poll loop over a fuel window is exactly the presence of a
ready observation inside the window. -/
theorem waitFrom_true_iff (avail : Nat → Bool) (reads : Nat → List Nat) :
    ∀ (fuel attempt : Nat),
      ((waitFrom avail reads attempt fuel).1 = true ↔
        ∃ i, attempt ≤ i ∧ i < attempt + fuel ∧
          checkAPModeStatus (avail i) (reads i) = true) := by
  intro fuel
  induction fuel with
  | zero =>
    intro attempt
    simp only [waitFrom]
    constructor
    · intro h
      simp at h
    · rintro ⟨i, h1, h2, _⟩
      omega
  | succ fuel ih =>
    intro attempt
    cases hc : checkAPModeStatus (avail attempt) (reads attempt) with
    | true =>
      rw [waitFrom_step_true avail reads attempt fuel hc]
      dsimp only
      simp only [true_iff]
      exact ⟨attempt, le_refl _, by omega, hc⟩
    | false =>
      rw [waitFrom_step_false avail reads attempt fuel hc]
      dsimp only
      rw [ih (attempt + 1)]
      constructor
      · rintro ⟨i, h1, h2, h3⟩
        exact ⟨i, by omega, by omega, h3⟩
      · rintro ⟨i, h1, h2, h3⟩
        refine ⟨i, ?_, by omega, h3⟩
        rcases Nat.eq_or_lt_of_le h1 with heq | hlt
        · rw [← heq] at h3
          rw [h3] at hc
          exact absurd hc (by simp)
        · omega

/-- On success the poll count locates the first ready observation. -/
theorem waitFrom_true_first (avail : Nat → Bool) (reads : Nat → List Nat) :
    ∀ (fuel attempt : Nat),
      (waitFrom avail reads attempt fuel).1 = true →
      (1 ≤ (waitFrom avail reads attempt fuel).2 ∧
        (waitFrom avail reads attempt fuel).2 ≤ fuel ∧
        checkAPModeStatus (avail (attempt + (waitFrom avail reads attempt fuel).2 - 1))
          (reads (attempt + (waitFrom avail reads attempt fuel).2 - 1)) = true ∧
        ∀ j, attempt ≤ j → j < attempt + (waitFrom avail reads attempt fuel).2 - 1 →
          checkAPModeStatus (avail j) (reads j) = false) := by
  intro fuel
  induction fuel with
  | zero =>
    intro attempt h
    simp [waitFrom] at h
  | succ fuel ih =>
    intro attempt h
    cases hc : checkAPModeStatus (avail attempt) (reads attempt) with
    | true =>
      rw [waitFrom_step_true avail reads attempt fuel hc]
      dsimp only
      refine ⟨le_refl _, by omega, ?_, ?_⟩
      · have harith : attempt + 1 - 1 = attempt := by omega
        rw [harith]
        exact hc
      · intro j hj1 hj2
        omega
    | false =>
      rw [waitFrom_step_false avail reads attempt fuel hc] at h ⊢
      dsimp only at h ⊢
      obtain ⟨k1, k2, k3, k4⟩ := ih (attempt + 1) h
      refine ⟨by omega, by omega, ?_, ?_⟩
      · have harith : attempt + ((waitFrom avail reads (attempt + 1) fuel).2 + 1) - 1 =
            attempt + 1 + (waitFrom avail reads (attempt + 1) fuel).2 - 1 := by omega
        rw [harith]
        exact k3
      · intro j hj1 hj2
        rcases Nat.eq_or_lt_of_le hj1 with heq | hlt
        · rw [← heq]
          exact hc
        · exact k4 j (by omega) (by omega)

/-- Exhausting the window consumes every poll. -/
theorem waitFrom_false_count (avail : Nat → Bool) (reads : Nat → List Nat) :
    ∀ (fuel attempt : Nat),
      (waitFrom avail reads attempt fuel).1 = false →
      (waitFrom avail reads attempt fuel).2 = fuel := by
  intro fuel
  induction fuel with
  | zero =>
    intro attempt _
    rfl
  | succ fuel ih =>
    intro attempt h
    cases hc : checkAPModeStatus (avail attempt) (reads attempt) with
    | true =>
      rw [waitFrom_step_true avail reads attempt fuel hc] at h
      simp at h
    | false =>
      rw [waitFrom_step_false avail reads attempt fuel hc] at h ⊢
      dsimp only at h ⊢
      rw [ih (attempt + 1) h]

/-- C3: the poll loop classifies each raw status byte by thresholds — a first
byte of at least 3 stops polling with success at the first such observation,
while the starting marker 1, any other value, an empty read and an unavailable
characteristic all continue — and exhausting the attempt budget without a
broadcasting observation yields the timeout result, never a false success;
success is never reported before a broadcasting value is observed. -/
theorem c3_ap_poll_classification (avail : Nat → Bool) (reads : Nat → List Nat) :
    (∀ (av : Bool) (bytes : List Nat),
      checkAPModeStatus av bytes = true ↔
        (av = true ∧ ∃ b rest, bytes = b :: rest ∧ 3 ≤ b)) ∧
    ((waitForAPMode avail reads).1 = true ↔
      ∃ i, 1 ≤ i ∧ i ≤ AP_READY_POLL_ATTEMPTS ∧
        checkAPModeStatus (avail i) (reads i) = true) ∧
    ((waitForAPMode avail reads).1 = true →
      checkAPModeStatus (avail (waitForAPMode avail reads).2)
          (reads (waitForAPMode avail reads).2) = true ∧
      ∀ j, 1 ≤ j → j < (waitForAPMode avail reads).2 →
        checkAPModeStatus (avail j) (reads j) = false) ∧
    ((waitForAPMode avail reads).1 = false →
      (waitForAPMode avail reads).2 = AP_READY_POLL_ATTEMPTS ∧
      ∀ i, 1 ≤ i → i ≤ AP_READY_POLL_ATTEMPTS →
        checkAPModeStatus (avail i) (reads i) = false) := by
  refine ⟨?_, ?_, ?_, ?_⟩
  · intro av bytes
    cases av with
    | false => simp [checkAPModeStatus]
    | true =>
      cases bytes with
      | nil => simp [checkAPModeStatus]
      | cons b rest =>
        by_cases hb : 3 ≤ b
        · simp [checkAPModeStatus, hb]
        · by_cases h1 : b = 1 <;> simp [checkAPModeStatus, hb, h1]
  · rw [waitForAPMode, waitFrom_true_iff]
    constructor
    · rintro ⟨i, h1, h2, h3⟩
      exact ⟨i, h1, by omega, h3⟩
    · rintro ⟨i, h1, h2, h3⟩
      exact ⟨i, h1, by omega, h3⟩
  · intro h
    rw [waitForAPMode] at h ⊢
    obtain ⟨k1, k2, k3, k4⟩ := waitFrom_true_first avail reads AP_READY_POLL_ATTEMPTS 1 h
    have harith : 1 + (waitFrom avail reads 1 AP_READY_POLL_ATTEMPTS).2 - 1 =
        (waitFrom avail reads 1 AP_READY_POLL_ATTEMPTS).2 := by omega
    rw [harith] at k3 k4
    exact ⟨k3, fun j hj1 hj2 => k4 j hj1 hj2⟩
  · intro h
    rw [waitForAPMode] at h ⊢
    refine ⟨waitFrom_false_count avail reads AP_READY_POLL_ATTEMPTS 1 h, ?_⟩
    intro i hi1 hi2
    by_contra hcon
    rw [Bool.not_eq_false] at hcon
    have := (waitFrom_true_iff avail reads AP_READY_POLL_ATTEMPTS 1).mpr
      ⟨i, hi1, by omega, hcon⟩
    rw [h] at this
    exact Bool.false_ne_true this

/-- Witness for C3: a run that reads two starting bytes then a broadcasting
byte succeeds. -/
theorem c3_ap_poll_classification_witness :
    (waitForAPMode (fun _ => true) (fun i => if i < 3 then [1] else [3])).1 = true :=
  ((c3_ap_poll_classification (fun _ => true)
      (fun i => if i < 3 then [1] else [3])).2.1).mpr
    ⟨3, by decide, by decide, by decide⟩

/-! ## C10: binding persistence across connect attempts -/

/-- Counterexample to C10 as stated: with all four globals already bound and a
successful BLE connect, an EMPTY enumeration makes `connectToGoPro` fail
before capability validation (the globals are still untouched). -/
theorem c10_counterexample :
    ¬((connectToGoPro ⟨some 0, some 1, some 2, some 3⟩ true (some [])).2 = true) ∧
    (connectToGoPro ⟨some 0, some 1, some 2, some 3⟩ true (some [])).1 =
      ⟨some 0, some 1, some 2, some 3⟩ := by
  decide

/-- C10 (amended): the four characteristic bindings are never reset — once
non-null they stay non-null through every `connectToGoPro` and
`reconnectToGoPro` call — and a later `connectToGoPro` whose BLE connect
succeeds with all four globals already bound returns success with the
bindings unchanged whenever the enumeration is non-empty, even if it matches
none of the four identifiers. -/
theorem c10_bindings_persist (b : Bindings) (connectOk : Bool)
    (services : Option (List RService)) (env : Env) :
    ((b.ssid.isSome = true →
        (connectToGoPro b connectOk services).1.ssid.isSome = true) ∧
      (b.password.isSome = true →
        (connectToGoPro b connectOk services).1.password.isSome = true) ∧
      (b.apEnable.isSome = true →
        (connectToGoPro b connectOk services).1.apEnable.isSome = true) ∧
      (b.apState.isSome = true →
        (connectToGoPro b connectOk services).1.apState.isSome = true)) ∧
    ((b.ssid.isSome = true → (reconnectToGoPro b env).1.ssid.isSome = true) ∧
      (b.password.isSome = true →
        (reconnectToGoPro b env).1.password.isSome = true) ∧
      (b.apEnable.isSome = true →
        (reconnectToGoPro b env).1.apEnable.isSome = true) ∧
      (b.apState.isSome = true →
        (reconnectToGoPro b env).1.apState.isSome = true)) ∧
    (∀ ss : List RService, b.ssid.isSome = true → b.password.isSome = true →
      b.apEnable.isSome = true → b.apState.isSome = true →
      ss.isEmpty = false → (∀ c ∈ allChars ss, matchesNoId c) →
      connectToGoPro b true (some ss) = (b, true)) := by
  have hmonoc : ∀ (ck : Bool) (sv : Option (List RService)) (b1 : Bindings),
      (connectToGoPro b ck sv).1 = b1 →
      (b.ssid.isSome = true → b1.ssid.isSome = true) ∧
      (b.password.isSome = true → b1.password.isSome = true) ∧
      (b.apEnable.isSome = true → b1.apEnable.isSome = true) ∧
      (b.apState.isSome = true → b1.apState.isSome = true) := by
    intro ck sv b1 hb1
    rcases connectToGoPro_fst_cases b ck sv with hc | ⟨ss, _, hc⟩
    · rw [hb1] at hc
      subst hc
      exact ⟨fun h => h, fun h => h, fun h => h, fun h => h⟩
    · rw [hb1] at hc
      subst hc
      exact ⟨fun h => resolvePass_mono_ssid h ss,
        fun h => resolvePass_mono_password h ss,
        fun h => resolvePass_mono_apEnable h ss,
        fun h => resolvePass_mono_apState h ss⟩
  refine ⟨hmonoc connectOk services _ rfl, ?_, ?_⟩
  · rcases reconnectToGoPro_fst b env with hr | hr
    · rw [hr]
      exact ⟨fun h => h, fun h => h, fun h => h, fun h => h⟩
    · rw [hr]
      exact hmonoc env.bleConnectOk env.services _ rfl
  · intro ss h1 h2 h3 h4 hne hnomatch
    have hpass : resolvePass b ss = b := by
      rw [resolvePass_eq_bindChars]
      have hlm : ∀ u : String, (∀ c ∈ allChars ss, eqIgnoreCase c.uuid u = false) →
          lastMatchRef u (allChars ss) = none := fun u h => lastMatchRef_eq_none h
      apply Bindings.ext_fields
      · rw [bindChars_ssid, hlm _ (fun c hc => (hnomatch c hc).1), orDefault]
      · rw [bindChars_password, hlm _ (fun c hc => (hnomatch c hc).2.1), orDefault]
      · rw [bindChars_apEnable, hlm _ (fun c hc => (hnomatch c hc).2.2.1), orDefault]
      · rw [bindChars_apState, hlm _ (fun c hc => (hnomatch c hc).2.2.2), orDefault]
    have hok : (connectToGoPro b true (some ss)).2 = true := by
      rw [connectToGoPro_ok_iff, hpass]
      exact ⟨hne, h1, h2, h3, h4⟩
    have hfst : (connectToGoPro b true (some ss)).1 = b := by
      rw [connectToGoPro_fst, hne]
      simp only [Bool.false_eq_true, if_false]
      exact hpass
    exact Prod.ext hfst hok

/-- Witness for C10: pre-bound globals survive a connect whose enumeration
matches nothing, and validation passes. -/
theorem c10_bindings_persist_witness :
    connectToGoPro ⟨some 0, some 1, some 2, some 3⟩ true
        (some [{ uuid := "svc", chars := some [{ uuid := "dead", ref := 7 }] }]) =
      (⟨some 0, some 1, some 2, some 3⟩, true) :=
  (c10_bindings_persist ⟨some 0, some 1, some 2, some 3⟩ true none
      ⟨true, ⟨2024, 1, 1, 0, 0, 0⟩, [], false, none, fun _ => ⟨true, true, "x"⟩,
        true, fun _ => [3], true, 200⟩).2.2
    [{ uuid := "svc", chars := some [{ uuid := "dead", ref := 7 }] }]
    (by decide) (by decide) (by decide) (by decide) (by decide)
    (by decide)


/-! ## Setup characterization -/

/-- A string of length zero is the empty string. -/
theorem string_length_zero {s : String} (h : s.length = 0) : s = "" := by
  cases s with
  | mk data =>
    have hd : data = [] := List.length_eq_zero.mp h
    rw [hd]

/-- A credential read that succeeds yields a non-empty string. -/
theorem getWiFiSSID_nonempty (b : Option Nat) (props : Nat → CharProps)
    (v : String) (h : getWiFiSSID b props = some v) : v ≠ "" := by
  intro hempty
  subst hempty
  cases b with
  | none => simp [getWiFiSSID] at h
  | some r =>
    unfold getWiFiSSID at h
    dsimp only at h
    by_cases hr : (props r).canRead = false
    · rw [if_pos hr] at h
      exact Option.noConfusion h
    · rw [if_neg hr] at h
      by_cases hv : 0 < (props r).value.length
      · rw [if_pos hv] at h
        injection h with h
        rw [h] at hv
        exact absurd hv (by decide)
      · rw [if_neg hv] at h
        exact Option.noConfusion h

/-- A password read that succeeds yields a non-empty string. -/
theorem getWiFiPassword_nonempty (b : Option Nat) (props : Nat → CharProps)
    (v : String) (h : getWiFiPassword b props = some v) : v ≠ "" := by
  intro hempty
  subst hempty
  cases b with
  | none => simp [getWiFiPassword] at h
  | some r =>
    unfold getWiFiPassword at h
    dsimp only at h
    by_cases hr : (props r).canRead = false
    · rw [if_pos hr] at h
      exact Option.noConfusion h
    · rw [if_neg hr] at h
      by_cases hv : 0 < (props r).value.length
      · rw [if_pos hv] at h
        injection h with h
        rw [h] at hv
        exact absurd hv (by decide)
      · rw [if_neg hv] at h
        exact Option.noConfusion h

/-- With every stage condition satisfied, `setup` runs the full trace and ends
in monitoring with the apply outcome. -/
theorem setup_monitoring_of_ok (env : Env) (h : setupStagesOk env) :
    setup env = (SetupResult.monitoring (httpApplied env.httpCode),
      ["rtc", "scan", "connect", "creds", "enable", "apwait", "wifi", "apply"]) := by
  obtain ⟨h1, ⟨a, ha⟩, h3, ⟨sv, hsv⟩, ⟨pv, hpv⟩, h6, h7, h8⟩ := h
  unfold setup
  simp only [h1, ha, h3, hsv, hpv, h6, h7, h8, Bool.true_eq_false, if_false]

/-- `setup` either completes (in monitoring, with the full stage trace) or
restarts after the fixed delay naming one of the pre-apply stages. -/
theorem setup_shape (env : Env) :
    ((setup env).1 = SetupResult.monitoring (httpApplied env.httpCode) ∧
      (setup env).2 = ["rtc", "scan", "connect", "creds", "enable", "apwait",
        "wifi", "apply"]) ∨
    ∃ st, st ∈ (["rtc", "scan", "connect", "creds", "enable", "apwait",
        "wifi"] : List String) ∧
      (setup env).1 = SetupResult.restart st RESTART_DELAY_MS := by
  unfold setup
  dsimp only
  repeat' split
  all_goals first
  | exact Or.inl ⟨rfl, rfl⟩
  | exact Or.inr ⟨"rtc", by decide, rfl⟩
  | exact Or.inr ⟨"scan", by decide, rfl⟩
  | exact Or.inr ⟨"connect", by decide, rfl⟩
  | exact Or.inr ⟨"creds", by decide, rfl⟩
  | exact Or.inr ⟨"enable", by decide, rfl⟩
  | exact Or.inr ⟨"apwait", by decide, rfl⟩
  | exact Or.inr ⟨"wifi", by decide, rfl⟩

/-- Conversely, ending in monitoring means every stage condition held. -/
theorem setup_stages_of_monitoring (env : Env)
    (h : (setup env).1 = SetupResult.monitoring (httpApplied env.httpCode)) :
    setupStagesOk env := by
  unfold setupStagesOk
  unfold setup at h
  dsimp only at h
  repeat' split at h
  any_goals simp at h
  refine ⟨by simp_all, ⟨_, by assumption⟩, by simp_all, ⟨_, by assumption⟩,
    ⟨_, by assumption⟩, by simp_all, by simp_all, by simp_all⟩

/-! ## C4: a failed time apply is non-fatal -/

/-- C4: whether during initial setup, after a reconnection or on a periodic
resync, a failed time apply never causes a restart or session abort — `setup`
still ends in monitoring, a post-reconnection apply failure leaves the loop
considering itself connected, and a periodic apply failure leaves the loop
state untouched. -/
theorem c4_apply_failure_nonfatal (env : Env) (s : LoopState) (e : LoopEnv)
    (hok : setupStagesOk env) :
    ((setup env).1 = SetupResult.monitoring (httpApplied env.httpCode) ∧
      ∀ st d, (setup env).1 ≠ SetupResult.restart st d) ∧
    (e.isConnected = false →
      RECONNECT_COOLDOWN_MS < usub e.now s.lastReconnectAttempt →
      e.reconnectOk = true → e.applyOk = false →
      ((loopStep s e).1.wasConnected = true ∧
        (loopStep s e).2.applyAttempted = true)) ∧
    (e.isConnected = true → RESYNC_PERIOD_MS < usub e.now s.lastSync →
      e.applyOk = false →
      ((loopStep s e).1 = ⟨s.wasConnected, s.lastReconnectAttempt, s.lastSync⟩ ∧
        (loopStep s e).2.applyAttempted = true)) := by
  refine ⟨⟨?_, ?_⟩, ?_, ?_⟩
  · rw [setup_monitoring_of_ok env hok]
  · intro st d heq
    rw [setup_monitoring_of_ok env hok] at heq
    exact SetupResult.noConfusion heq
  · intro hic hgate hrec happ
    unfold loopStep
    dsimp only
    rw [if_pos ⟨hic, hgate⟩, if_pos hrec, if_neg (by simp [happ])]
    exact ⟨rfl, rfl⟩
  · intro hic hgate happ
    unfold loopStep
    dsimp only
    rw [if_neg (by simp [hic]), if_pos ⟨hic, hgate⟩, if_neg (by simp [happ])]
    simp [hic]

/-- Witness for C4: the all-success oracle with HTTP code 500 still ends
`setup` in monitoring. -/
theorem c4_apply_failure_nonfatal_witness :
    (setup (okEnv 500)).1 = SetupResult.monitoring false := by
  have h := (c4_apply_failure_nonfatal (okEnv 500) LoopState.init
      ⟨false, true, false, 40000, 41000⟩
      ⟨by decide, ⟨"aa", by decide⟩, by decide, ⟨"creds", by decide⟩,
        ⟨"creds", by decide⟩, by decide, by decide, by decide⟩).1.1
  rw [h]
  decide

/-! ## C6: initial-setup failure policy -/

/-- Counterexample to C6 as stated: with every other stage succeeding and the
HTTP apply failing (code 500), `setup` ends in monitoring, not in the claimed
terminal restart — an Applying failure is not an initial-setup failure. -/
theorem c6_counterexample :
    httpApplied 500 = false ∧
    (setup (okEnv 500)).1 = SetupResult.monitoring false ∧
    SetupResult.monitoring false ≠ SetupResult.restart "apply" RESTART_DELAY_MS := by
  refine ⟨by decide, ?_, by decide⟩
  decide

/-- C6 (amended): during initial setup, any stage failure in Discovering
through Handover (RTC init, scan, BLE connect and capability resolution,
credential read, AP enable, AP-ready wait, WiFi join) causes a terminal
initial-setup failure — the process enters the fixed 30 s delay and then fully
restarts, never retrying the failed stage alone — while a failure of the Time
Apply stage alone never causes a restart. -/
theorem c6_initial_setup_failure (env : Env) :
    (¬ setupStagesOk env →
      ∃ st, (setup env).1 = SetupResult.restart st RESTART_DELAY_MS ∧
        st ∈ (["rtc", "scan", "connect", "creds", "enable", "apwait",
          "wifi"] : List String)) ∧
    (∀ st d, (setup env).1 = SetupResult.restart st d →
      d = RESTART_DELAY_MS ∧ st ≠ "apply" ∧ ¬ setupStagesOk env) := by
  constructor
  · intro hno
    rcases setup_shape env with ⟨hmon, _⟩ | ⟨st, hmem, hres⟩
    · exact absurd (setup_stages_of_monitoring env hmon) hno
    · exact ⟨st, hres, hmem⟩
  · intro st d heq
    rcases setup_shape env with ⟨hmon, _⟩ | ⟨st2, hmem, hres⟩
    · rw [heq] at hmon
      exact SetupResult.noConfusion hmon
    · rw [heq] at hres
      injection hres with hst hd
      subst hst
      subst hd
      have hst7 : st = "rtc" ∨ st = "scan" ∨ st = "connect" ∨ st = "creds" ∨
          st = "enable" ∨ st = "apwait" ∨ st = "wifi" := by simpa using hmem
      refine ⟨rfl, ?_, ?_⟩
      · rcases hst7 with h | h | h | h | h | h | h <;> subst h <;> decide
      intro hok
      have := setup_monitoring_of_ok env hok
      rw [Prod.ext_iff] at this
      rw [heq] at this
      exact SetupResult.noConfusion this.1

/-- Witness for C6: a failed scan (no device advertising) yields the fixed
restart naming a pre-apply stage. -/
theorem c6_initial_setup_failure_witness :
    ∃ st, (setup ⟨true, ⟨2024, 3, 9, 14, 5, 30⟩, [], true, none,
        fun _ => ⟨true, true, "creds"⟩, true, fun _ => [3], true, 200⟩).1 =
        SetupResult.restart st RESTART_DELAY_MS ∧
      st ∈ (["rtc", "scan", "connect", "creds", "enable", "apwait",
        "wifi"] : List String) :=
  (c6_initial_setup_failure _).1 (fun hok => by
    obtain ⟨_, ⟨a, ha⟩, _⟩ := hok
    exact Option.noConfusion ha)

/-! ## C8: credentials gate AP activation -/

/-- C8: a credential read fails exactly when the binding is null, the
characteristic is unreadable, or its value is empty; a successful read is
non-empty; and in both `setup` and `reconnectToGoPro`, the AP-enable write is
reached only after both credential reads succeeded with non-empty strings. -/
theorem c8_credentials_gate (b : Option Nat) (props : Nat → CharProps)
    (env : Env) (b0 : Bindings) :
    (getWiFiSSID b props = none ↔
      (b = none ∨ ∃ r, b = some r ∧
        ((props r).canRead = false ∨ (props r).value = ""))) ∧
    (getWiFiPassword b props = none ↔
      (b = none ∨ ∃ r, b = some r ∧
        ((props r).canRead = false ∨ (props r).value = ""))) ∧
    (∀ v, getWiFiSSID b props = some v → v ≠ "") ∧
    (∀ v, getWiFiPassword b props = some v → v ≠ "") ∧
    ("enable" ∈ (setup env).2 →
      ∃ sv pv,
        getWiFiSSID
          (connectToGoPro Bindings.empty env.bleConnectOk env.services).1.ssid
          env.props = some sv ∧ sv ≠ "" ∧
        getWiFiPassword
          (connectToGoPro Bindings.empty env.bleConnectOk env.services).1.password
          env.props = some pv ∧ pv ≠ "") ∧
    ("enable" ∈ (reconnectToGoPro b0 env).2.2 →
      ∃ sv pv,
        getWiFiSSID (connectToGoPro b0 env.bleConnectOk env.services).1.ssid
          env.props = some sv ∧ sv ≠ "" ∧
        getWiFiPassword (connectToGoPro b0 env.bleConnectOk env.services).1.password
          env.props = some pv ∧ pv ≠ "") := by
  refine ⟨?_, ?_, ?_, ?_, ?_, ?_⟩
  · cases b with
    | none => simp [getWiFiSSID]
    | some r =>
      unfold getWiFiSSID
      dsimp only
      by_cases hr : (props r).canRead = false
      · rw [if_pos hr]
        exact iff_of_true rfl (Or.inr ⟨r, rfl, Or.inl hr⟩)
      · rw [if_neg hr]
        by_cases hv : 0 < (props r).value.length
        · rw [if_pos hv]
          refine iff_of_false (by simp) ?_
          rintro (h | ⟨r2, hr2, hcase⟩)
          · exact Option.noConfusion h
          · injection hr2 with hr2
            subst hr2
            rcases hcase with h | h
            · exact hr h
            · rw [h] at hv
              exact absurd hv (by decide)
        · rw [if_neg hv]
          refine iff_of_true rfl (Or.inr ⟨r, rfl, Or.inr ?_⟩)
          exact string_length_zero (by omega)
  · cases b with
    | none => simp [getWiFiPassword]
    | some r =>
      unfold getWiFiPassword
      dsimp only
      by_cases hr : (props r).canRead = false
      · rw [if_pos hr]
        exact iff_of_true rfl (Or.inr ⟨r, rfl, Or.inl hr⟩)
      · rw [if_neg hr]
        by_cases hv : 0 < (props r).value.length
        · rw [if_pos hv]
          refine iff_of_false (by simp) ?_
          rintro (h | ⟨r2, hr2, hcase⟩)
          · exact Option.noConfusion h
          · injection hr2 with hr2
            subst hr2
            rcases hcase with h | h
            · exact hr h
            · rw [h] at hv
              exact absurd hv (by decide)
        · rw [if_neg hv]
          refine iff_of_true rfl (Or.inr ⟨r, rfl, Or.inr ?_⟩)
          exact string_length_zero (by omega)
  · exact fun v hv => getWiFiSSID_nonempty b props v hv
  · exact fun v hv => getWiFiPassword_nonempty b props v hv
  · intro henable
    unfold setup at henable
    dsimp only at henable
    by_cases h1 : env.rtcOk = false
    · rw [if_pos h1] at henable
      exact absurd henable (by dsimp only; decide)
    · rw [if_neg h1] at henable
      cases hscan : (scanForGoPro env.scanResults).result with
      | none =>
        rw [hscan] at henable
        exact absurd henable (by dsimp only; decide)
      | some a =>
        rw [hscan] at henable
        dsimp only at henable
        by_cases hc :
            (connectToGoPro Bindings.empty env.bleConnectOk env.services).2 = false
        · rw [if_pos hc] at henable
          exact absurd henable (by dsimp only; decide)
        · rw [if_neg hc] at henable
          cases hssid : getWiFiSSID
              (connectToGoPro Bindings.empty env.bleConnectOk env.services).1.ssid
              env.props with
          | none =>
            rw [hssid] at henable
            exact absurd henable (by dsimp only; decide)
          | some sv =>
            rw [hssid] at henable
            dsimp only at henable
            cases hpw : getWiFiPassword
                (connectToGoPro Bindings.empty env.bleConnectOk
                  env.services).1.password env.props with
            | none =>
              rw [hpw] at henable
              exact absurd henable (by dsimp only; decide)
            | some pv =>
              exact ⟨sv, pv, rfl, getWiFiSSID_nonempty _ _ _ hssid, rfl,
                getWiFiPassword_nonempty _ _ _ hpw⟩
  · intro henable
    unfold reconnectToGoPro at henable
    dsimp only at henable
    cases hscan : (scanForGoPro env.scanResults).result with
    | none =>
      rw [hscan] at henable
      exact absurd henable (by dsimp only; decide)
    | some a =>
      rw [hscan] at henable
      dsimp only at henable
      by_cases hc : (connectToGoPro b0 env.bleConnectOk env.services).2 = false
      · rw [if_pos hc] at henable
        exact absurd henable (by dsimp only; decide)
      · rw [if_neg hc] at henable
        cases hssid : getWiFiSSID
            (connectToGoPro b0 env.bleConnectOk env.services).1.ssid env.props with
        | none =>
          rw [hssid] at henable
          exact absurd henable (by dsimp only; decide)
        | some sv =>
          rw [hssid] at henable
          dsimp only at henable
          cases hpw : getWiFiPassword
              (connectToGoPro b0 env.bleConnectOk env.services).1.password
              env.props with
          | none =>
            rw [hpw] at henable
            exact absurd henable (by dsimp only; decide)
          | some pv =>
            exact ⟨sv, pv, rfl, getWiFiSSID_nonempty _ _ _ hssid, rfl,
              getWiFiPassword_nonempty _ _ _ hpw⟩

/-- Witness for C8: in the all-success run the AP-enable stage is reached and
the credentials read are the non-empty string "creds". -/
theorem c8_credentials_gate_witness :
    ∃ sv pv,
      getWiFiSSID
        (connectToGoPro Bindings.empty (okEnv 200).bleConnectOk
          (okEnv 200).services).1.ssid (okEnv 200).props = some sv ∧ sv ≠ "" ∧
      getWiFiPassword
        (connectToGoPro Bindings.empty (okEnv 200).bleConnectOk
          (okEnv 200).services).1.password (okEnv 200).props = some pv ∧ pv ≠ "" :=
  (c8_credentials_gate none (fun _ => ⟨true, true, "creds"⟩) (okEnv 200)
      Bindings.empty).2.2.2.2.1 (by decide)


/-! ## Loop step characterization -/

/-- Unsigned subtraction coincides with truncated subtraction below the
modulus. -/
theorem usub_eq_sub {a b : Nat} (hba : b ≤ a) (ha : a < UINT32_MOD) :
    usub a b = a - b := by
  have hb : b < UINT32_MOD := lt_of_le_of_lt hba ha
  unfold usub
  rw [Nat.mod_eq_of_lt ha, Nat.mod_eq_of_lt hb]
  have hM : (0 : Nat) < UINT32_MOD := by decide
  have h1 : a + (UINT32_MOD - b) = (a - b) + UINT32_MOD := by omega
  rw [h1, Nat.add_mod_right]
  exact Nat.mod_eq_of_lt (by omega)

/-- The reconnection branch: entered exactly under its gate, it stamps the
attempt time and always runs the reconnection unit. -/
theorem loopStep_reconnect_branch (s : LoopState) (e : LoopEnv)
    (hic : e.isConnected = false)
    (hgate : RECONNECT_COOLDOWN_MS < usub e.now s.lastReconnectAttempt) :
    (loopStep s e).1.lastReconnectAttempt = e.now ∧
    (loopStep s e).2.reconnectAttempted = true := by
  unfold loopStep
  dsimp only
  rw [if_pos ⟨hic, hgate⟩]
  by_cases hrec : e.reconnectOk = true
  · rw [if_pos hrec]
    by_cases happ : e.applyOk = true
    · rw [if_pos happ]
      exact ⟨rfl, rfl⟩
    · rw [if_neg happ]
      exact ⟨rfl, rfl⟩
  · rw [if_neg hrec]
    exact ⟨rfl, rfl⟩

/-- Outside its gate, the reconnection branch neither runs nor touches the
attempt timestamp. -/
theorem loopStep_no_reconnect (s : LoopState) (e : LoopEnv)
    (hng : ¬(e.isConnected = false ∧
      RECONNECT_COOLDOWN_MS < usub e.now s.lastReconnectAttempt)) :
    (loopStep s e).1.lastReconnectAttempt = s.lastReconnectAttempt ∧
    (loopStep s e).2.reconnectAttempted = false := by
  unfold loopStep
  dsimp only
  rw [if_neg hng]
  by_cases hp : (e.isConnected = true ∧ RESYNC_PERIOD_MS < usub e.now s.lastSync)
  · rw [if_pos hp]
    by_cases happ : e.applyOk = true
    · rw [if_pos happ]
      exact ⟨rfl, rfl⟩
    · rw [if_neg happ]
      exact ⟨rfl, rfl⟩
  · rw [if_neg hp]
    exact ⟨rfl, rfl⟩

/-- The reconnection unit runs exactly when the loop sees no association and
the cool-down window has elapsed. -/
theorem loopStep_attempted_iff (s : LoopState) (e : LoopEnv) :
    (loopStep s e).2.reconnectAttempted = true ↔
      (e.isConnected = false ∧
        RECONNECT_COOLDOWN_MS < usub e.now s.lastReconnectAttempt) := by
  by_cases hg : (e.isConnected = false ∧
      RECONNECT_COOLDOWN_MS < usub e.now s.lastReconnectAttempt)
  · simp [(loopStep_reconnect_branch s e hg.1 hg.2).2, hg]
  · simp [(loopStep_no_reconnect s e hg).2, hg]

/-- The attempt timestamp after a step is the step time or the old stamp. -/
theorem loopStep_last_cases (s : LoopState) (e : LoopEnv) :
    (loopStep s e).1.lastReconnectAttempt = e.now ∨
    (loopStep s e).1.lastReconnectAttempt = s.lastReconnectAttempt := by
  by_cases hg : (e.isConnected = false ∧
      RECONNECT_COOLDOWN_MS < usub e.now s.lastReconnectAttempt)
  · exact Or.inl (loopStep_reconnect_branch s e hg.1 hg.2).1
  · exact Or.inr (loopStep_no_reconnect s e hg).1

/-- Unfolding `attemptedAt` at the head of a run. -/
theorem attemptedAt_zero (s : LoopState) (x : LoopEnv) (xs : List LoopEnv) :
    attemptedAt s (x :: xs) 0 = (loopStep s x).2.reconnectAttempted :=
  rfl

/-- Unfolding `attemptedAt` past the head of a run. -/
theorem attemptedAt_succ (s : LoopState) (x : LoopEnv) (xs : List LoopEnv)
    (k : Nat) :
    attemptedAt s (x :: xs) (k + 1) = attemptedAt (loopStep s x).1 xs k :=
  rfl

/-- A lower bound on times entering a run is a lower bound on the attempt
timestamp throughout it. -/
theorem stateAfter_last_lb (T : Nat) :
    ∀ (envs : List LoopEnv) (s : LoopState) (k : Nat),
      T ≤ s.lastReconnectAttempt → (∀ e ∈ envs, T ≤ e.now) →
      T ≤ (stateAfter s envs k).lastReconnectAttempt := by
  intro envs
  induction envs with
  | nil =>
    intro s k hs _
    cases k <;> exact hs
  | cons x xs ih =>
    intro s k hs hall
    cases k with
    | zero => exact hs
    | succ k =>
      apply ih
      · rcases loopStep_last_cases s x with h | h
        · rw [h]
          exact hall x (List.mem_cons_self x xs)
        · rw [h]
          exact hs
      · intro y hy
        exact hall y (List.mem_cons_of_mem _ hy)

/-- With monotone times, the attempt timestamp never exceeds the time of the
next iteration. -/
theorem stateAfter_last_ub :
    ∀ (envs : List LoopEnv) (s : LoopState) (k : Nat) (e : LoopEnv),
      envs.get? k = some e →
      (∀ x ∈ envs, s.lastReconnectAttempt ≤ x.now) →
      envs.Pairwise (fun a b => a.now ≤ b.now) →
      (stateAfter s envs k).lastReconnectAttempt ≤ e.now := by
  intro envs
  induction envs with
  | nil =>
    intro s k e hk
    simp at hk
  | cons x xs ih =>
    intro s k e hk hall hpw
    cases k with
    | zero =>
      have hx : x = e := by simpa using hk
      subst hx
      exact hall x (List.mem_cons_self x xs)
    | succ k =>
      rw [List.get?_cons_succ] at hk
      have hpc := List.pairwise_cons.mp hpw
      apply ih (loopStep s x).1 k e hk
      · intro y hy
        rcases loopStep_last_cases s x with h | h
        · rw [h]
          exact hpc.1 y hy
        · rw [h]
          exact hall y (List.mem_cons_of_mem _ hy)
      · exact hpc.2

/-! ## C5: reconnection attempts are rate-limited -/

/-- C5: along any run of the monitoring loop with monotone 32-bit clock
readings, two iterations that both execute the reconnection unit are more
than one cool-down window apart — within one window at most one unit runs,
and a further attempt happens only after the window has elapsed since the
previous attempt started. -/
theorem c5_reconnect_rate_limited :
    ∀ (envs : List LoopEnv) (s : LoopState),
      envs.Pairwise (fun a b => a.now ≤ b.now) →
      (∀ e ∈ envs, e.now < UINT32_MOD) →
      (∀ e ∈ envs, s.lastReconnectAttempt ≤ e.now) →
      ∀ i j ei ej, i < j → envs.get? i = some ei → envs.get? j = some ej →
        attemptedAt s envs i = true → attemptedAt s envs j = true →
        ei.now + RECONNECT_COOLDOWN_MS < ej.now := by
  intro envs
  induction envs with
  | nil =>
    intro s _ _ _ i j ei ej _ hi
    simp at hi
  | cons x xs ih =>
    intro s hpw hbound hinit i j ei ej hij hi hj hai haj
    have hpc := List.pairwise_cons.mp hpw
    cases i with
    | zero =>
      have hei : x = ei := by simpa using hi
      subst hei
      rw [attemptedAt_zero] at hai
      have hgate0 := (loopStep_attempted_iff s x).mp hai
      have hs1 : (loopStep s x).1.lastReconnectAttempt = x.now :=
        (loopStep_reconnect_branch s x hgate0.1 hgate0.2).1
      cases j with
      | zero => omega
      | succ j =>
        rw [List.get?_cons_succ] at hj
        rw [attemptedAt_succ] at haj
        have haj2 : (loopStep (stateAfter (loopStep s x).1 xs j) ej).2.reconnectAttempted
            = true := by
          unfold attemptedAt at haj
          rw [hj] at haj
          exact haj
        have hgj := (loopStep_attempted_iff (stateAfter (loopStep s x).1 xs j) ej).mp haj2
        have hlb : x.now ≤ (stateAfter (loopStep s x).1 xs j).lastReconnectAttempt :=
          stateAfter_last_lb x.now xs (loopStep s x).1 j (le_of_eq hs1.symm)
            (fun y hy => hpc.1 y hy)
        have hub : (stateAfter (loopStep s x).1 xs j).lastReconnectAttempt ≤ ej.now :=
          stateAfter_last_ub xs (loopStep s x).1 j ej hj
            (fun y hy => by rw [hs1]; exact hpc.1 y hy) hpc.2
        have hbj : ej.now < UINT32_MOD :=
          hbound ej (List.mem_cons_of_mem _ (List.get?_mem hj))
        have hg2 := hgj.2
        rw [usub_eq_sub hub hbj] at hg2
        omega
    | succ i =>
      cases j with
      | zero => omega
      | succ j =>
        rw [List.get?_cons_succ] at hi hj
        rw [attemptedAt_succ] at hai haj
        apply ih (loopStep s x).1 hpc.2 (fun y hy => hbound y (List.mem_cons_of_mem _ hy))
          ?_ i j ei ej (by omega) hi hj hai haj
        intro y hy
        rcases loopStep_last_cases s x with h | h
        · rw [h]
          exact hpc.1 y hy
        · rw [h]
          exact hinit y (List.mem_cons_of_mem _ hy)

/-- Witness for C5: two gated attempts 40 s apart are more than the 30 s
cool-down apart. -/
theorem c5_reconnect_rate_limited_witness :
    (⟨false, false, false, 40000, 0⟩ : LoopEnv).now + RECONNECT_COOLDOWN_MS <
      (⟨false, false, false, 80000, 0⟩ : LoopEnv).now :=
  c5_reconnect_rate_limited
    [⟨false, false, false, 40000, 0⟩, ⟨false, false, false, 80000, 0⟩]
    LoopState.init (by decide) (by decide) (by decide) 0 1 _ _
    (by decide) rfl rfl (by decide) (by decide)

/-! ## C9: behaviour after a successful reconnection -/

/-- Counterexample to C9 as stated: a fully successful reconnection whose
immediate time apply fails leaves the resync timer (`lastSync`) unchanged —
the timer is not reset on returning to monitoring. -/
theorem c9_counterexample :
    (let r := loopStep ⟨false, 0, 5⟩ ⟨false, true, false, 40000, 41000⟩;
      r.2.reconnectAttempted = true ∧ r.2.applyAttempted = true ∧
      r.1.wasConnected = true ∧ r.1.lastSync = 5 ∧ (5 : Nat) ≠ 41000) := by
  decide

/-- C9 (amended): whenever the reconnection unit fully succeeds, the loop
immediately re-invokes the time apply and returns to monitoring considering
itself connected, stamping the attempt time; the resync timer is reset to the
current time only when that apply succeeds, and is left unchanged when it
fails. -/
theorem c9_post_reconnect_apply (s : LoopState) (e : LoopEnv)
    (hic : e.isConnected = false)
    (hgate : RECONNECT_COOLDOWN_MS < usub e.now s.lastReconnectAttempt)
    (hrec : e.reconnectOk = true) :
    (loopStep s e).2.reconnectAttempted = true ∧
    (loopStep s e).2.applyAttempted = true ∧
    (loopStep s e).1.wasConnected = true ∧
    (loopStep s e).1.lastReconnectAttempt = e.now ∧
    (e.applyOk = true →
      (loopStep s e).1.lastSync = e.nowSync ∧ (loopStep s e).2.beeped = true) ∧
    (e.applyOk = false →
      (loopStep s e).1.lastSync = s.lastSync ∧ (loopStep s e).2.beeped = false) := by
  unfold loopStep
  dsimp only
  rw [if_pos ⟨hic, hgate⟩, if_pos hrec]
  by_cases happ : e.applyOk = true
  · rw [if_pos happ]
    exact ⟨rfl, rfl, rfl, rfl, fun _ => ⟨rfl, rfl⟩,
      fun hf => absurd happ (by simp [hf])⟩
  · rw [if_neg happ]
    exact ⟨rfl, rfl, rfl, rfl, fun ht => absurd ht happ, fun _ => ⟨rfl, rfl⟩⟩

/-- Witness for C9: a successful post-reconnection apply stamps the resync
timer with the apply-time clock reading. -/
theorem c9_post_reconnect_apply_witness :
    (loopStep ⟨false, 0, 5⟩ ⟨false, true, true, 40000, 41000⟩).1.lastSync = 41000 :=
  ((c9_post_reconnect_apply ⟨false, 0, 5⟩ ⟨false, true, true, 40000, 41000⟩ rfl
      (by decide) rfl).2.2.2.2.1 rfl).1


end GoProTimeSync
